import Mathlib

/-!
Verification development for the starport repository: a shallow embedding in
Lean 4 of the configurable-module layer (base/module.go), the OpenAI binding
(llm/openai.go), the Resend email binding (email/resend.go), the Charm common
module (charm/core) and the Charm KV binding (charm/ckv/kv.go), together with
theorems settling the behavioural claims about them.

Impure Go producers (configuration getters that may read the environment) are
embedded as functions of an abstract read instant `World`; external library
calls (the OpenAI / Resend / Charm network clients, file reads, base64 and PNG
codecs, markdown rendering) are passed in explicitly as function-valued
parameters, and invocation counts of the external client are returned
alongside the result wherever a claim speaks about how many times the client
is invoked.
-/

set_option autoImplicit false

namespace Starport

/-- World is the instant at which an impure Go producer is invoked; a Go
closure of type `func() T` that may read mutable surroundings is embedded as
`World → T`. -/
abbrev World : Type := Nat

/-- Association-list map with unique keys, embedding a Go `map[string]V`
together with the insertion-order key enumeration used by the module loader. -/
def AssocMap (V : Type) : Type := List (String × V)

/-- Lookup in an association map, embedding Go map indexing `m[k]`. -/
def mapGet {V : Type} (m : AssocMap V) (k : String) : Option V :=
  match m with
  | [] => none
  | (k2, v) :: rest => if k2 = k then some v else mapGet rest k

/-- Insert-or-replace, embedding Go map assignment `m[k] = v`. -/
def mapInsert {V : Type} (m : AssocMap V) (k : String) (v : V) : AssocMap V :=
  match m with
  | [] => [(k, v)]
  | (k2, v2) :: rest => if k2 = k then (k, v) :: rest else (k2, v2) :: mapInsert rest k v

/-- Key removal, embedding Go `delete(m, k)`: afterwards the key is absent. -/
def mapErase {V : Type} (m : AssocMap V) (k : String) : AssocMap V :=
  match m with
  | [] => []
  | (k2, v2) :: rest => if k2 = k then mapErase rest k else (k2, v2) :: mapErase rest k

theorem mapGet_mapInsert_self {V : Type} (m : AssocMap V) (k : String) (v : V) :
    mapGet (mapInsert m k v) k = some v := by
  induction m with
  | nil => simp [mapGet, mapInsert]
  | cons hd tl ih =>
    obtain ⟨k2, v2⟩ := hd
    by_cases h : k2 = k <;> simp [mapGet, mapInsert, h, ih]

theorem mapGet_mapErase_ne {V : Type} (m : AssocMap V) (k k2 : String) (h : k ≠ k2) :
    mapGet (mapErase m k) k2 = mapGet m k2 := by
  induction m with
  | nil => simp [mapGet, mapErase]
  | cons hd tl ih =>
    obtain ⟨k3, v3⟩ := hd
    by_cases h3 : k3 = k
    · subst h3
      simp [mapGet, mapErase, h, ih]
    · by_cases h4 : k3 = k2 <;>
        simp [mapGet, mapErase, h3, h4, ih, Ne.symm h]

theorem mapGet_mapErase_self {V : Type} (m : AssocMap V) (k : String) :
    mapGet (mapErase m k) k = none := by
  induction m with
  | nil => simp [mapGet, mapErase]
  | cons hd tl ih =>
    obtain ⟨k2, v2⟩ := hd
    by_cases h2 : k2 = k <;> simp [mapGet, mapErase, h2, ih]

end Starport

namespace Starport.Base

open Starport

/-- ConfigGetter embeds base/module.go `type ConfigGetter[T any] func() T`:
an impure deferred producer, a function of the read instant. -/
def ConfigGetter (T : Type) : Type := World → T

/-- ConfigurableModule embeds base/module.go `ConfigurableModule[T]`: a map
from configuration name to a nilable producer (a Go function value may be
nil, hence the `Option` around the getter). -/
structure ConfigurableModule (T : Type) where
  configs : AssocMap (Option (ConfigGetter T))

/-- NewConfigurableModule embeds base/module.go `NewConfigurableModule`. -/
def NewConfigurableModule (T : Type) : ConfigurableModule T := ⟨[]⟩

/-- SetConfig embeds base/module.go `SetConfig`: unconditional overwrite. -/
def SetConfig {T : Type} (m : ConfigurableModule T) (name : String)
    (getter : Option (ConfigGetter T)) : ConfigurableModule T :=
  ⟨mapInsert m.configs name getter⟩

/-- SetConfigValue embeds base/module.go `SetConfigValue`: binds the name to
a producer that always returns `value`. -/
def SetConfigValue {T : Type} (m : ConfigurableModule T) (name : String) (value : T) :
    ConfigurableModule T :=
  SetConfig m name (some (fun _ => value))

/-- GetConfig embeds base/module.go `GetConfig`: fails when the name was
never bound or the bound producer is nil, otherwise invokes the producer at
the current instant. -/
def GetConfig {T : Type} (m : ConfigurableModule T) (name : String) (w : World) :
    Except String T :=
  match mapGet m.configs name with
  | some (some getter) => Except.ok (getter w)
  | _ => Except.error ("config " ++ name ++ " not set")

end Starport.Base

namespace Starport

/-- StarValue models the Starlark script-level values that cross the binding
boundary (go.starlark.net value kinds used by the source; dictionaries in the
source are only ever keyed by strings). -/
inductive StarValue where
  | none
  | bool (b : Bool)
  | int (i : Int)
  | float (f : Float)
  | str (s : String)
  | bytes (s : String)
  | list (xs : List StarValue)
  | tuple (xs : List StarValue)
  | dict (entries : List (String × StarValue))

/-- GoValue models the dynamically-typed Go value produced by
`dataconv.Unmarshal` (nil, bool, int64, float64, string, slice or map). -/
inductive GoValue where
  | nullValue
  | bool (b : Bool)
  | int (i : Int)
  | float (f : Float)
  | str (s : String)
  | listVal (xs : List GoValue)
  | dictVal (entries : List (String × GoValue))

mutual

/-- Unmarshal embeds `dataconv.Unmarshal` (external starlet library): the
generic Starlark-to-Go value conversion used by the generated setters. -/
def unmarshal : StarValue → GoValue
  | StarValue.none => GoValue.nullValue
  | StarValue.bool b => GoValue.bool b
  | StarValue.int i => GoValue.int i
  | StarValue.float f => GoValue.float f
  | StarValue.str s => GoValue.str s
  | StarValue.bytes s => GoValue.str s
  | StarValue.list xs => GoValue.listVal (unmarshalMany xs)
  | StarValue.tuple xs => GoValue.listVal (unmarshalMany xs)
  | StarValue.dict es => GoValue.dictVal (unmarshalEntries es)

def unmarshalMany : List StarValue → List GoValue
  | [] => []
  | x :: xs => unmarshal x :: unmarshalMany xs

def unmarshalEntries : List (String × StarValue) → List (String × GoValue)
  | [] => []
  | (k, v) :: es => (k, unmarshal v) :: unmarshalEntries es

end

/-- Go `%T` rendering of the dynamic type of an unmarshalled value, as used
by the type-mismatch error message of base/module.go. -/
def goTypeName : GoValue → String
  | GoValue.nullValue => "<nil>"
  | GoValue.bool _ => "bool"
  | GoValue.int _ => "int64"
  | GoValue.float _ => "float64"
  | GoValue.str _ => "string"
  | GoValue.listVal _ => "[]interface \x7b\x7d"
  | GoValue.dictVal _ => "map[string]interface \x7b\x7d"

/-- Keyword assignment step of Starlark argument unpacking. Modelled from the
spec: the external go.starlark.net `UnpackArgs` mechanism ("a way to unpack
positional/keyword arguments into typed local variables"), restricted to a
single declared parameter. -/
def assignKwargs (pname : String) (cur : Option StarValue) :
    List (String × StarValue) → Except String (Option StarValue)
  | [] => Except.ok cur
  | (k, v) :: rest =>
    if k = pname then
      match cur with
      | some _ => Except.error ("multiple values for parameter " ++ pname)
      | Option.none => assignKwargs pname (some v) rest
    else Except.error ("unexpected keyword argument " ++ k)

/-- Unpacking of exactly one required positional-or-keyword parameter.
Modelled from the spec: `starlark.UnpackArgs(name, args, kwargs, name, &v)`
of the external go.starlark.net library. -/
def unpackOneArg (pname : String) (args : List StarValue)
    (kwargs : List (String × StarValue)) : Except String StarValue :=
  if args.length > 1 then Except.error "too many positional arguments"
  else
    match assignKwargs pname args.head? kwargs with
    | Except.error e => Except.error e
    | Except.ok (some v) => Except.ok v
    | Except.ok Option.none => Except.error ("missing argument for " ++ pname)

end Starport

namespace Starport.Base

open Starport

/-- GoType packages the Go type parameter `T` of `ConfigurableModule[T]`: the
runtime type assertion `gv.(T)` and the `%T` name of the expected type. -/
structure GoType (T : Type) where
  cast : GoValue → Option T
  name : String

/-- The instantiation at `T = string`, the value type used by every binding
module of the repository. -/
def stringGoType : GoType String where
  cast := fun gv => match gv with
    | GoValue.str s => some s
    | _ => Option.none
  name := "string"

/-- The script-callable configuration setter generated per key, embedding
base/module.go `genSetConfig`: unpack the single value named after the key,
unmarshal it, type-assert it to `T`, and on success bind the key to a
producer that always returns the decoded value. -/
def genSetConfig {T : Type} (tt : GoType T) (m : ConfigurableModule T) (name : String)
    (args : List StarValue) (kwargs : List (String × StarValue)) :
    Except String (ConfigurableModule T) :=
  match unpackOneArg name args kwargs with
  | Except.error e => Except.error e
  | Except.ok v =>
    let gv := unmarshal v
    match tt.cast gv with
    | Option.none =>
      Except.error ("value type mismatch, expected " ++ tt.name ++ ", got " ++ goTypeName gv)
    | some vt => Except.ok (SetConfig m name (some (fun _ => vt)))

/-- Operation table entries of a loaded module: the distinct script-callable
builtins each binding registers (values of the Starlark string dictionary
handed to `dataconv.WrapModuleData`). -/
inductive Op where
  | setter (key : String)
  | message
  | chat
  | draw
  | send
  | getConfigOp
  | getBio
  | getUserId
  | setUsername
  | getUsername
  | getHost
  | getKeyFiles
  | getKeys
  | kvGet
  | kvSet
  | kvGetJSON
  | kvSetJSON
  | kvDelete
  | kvList
  | kvListKeys
  | kvListValues
  | kvListDB
  | kvSync
  | kvReset
deriving DecidableEq, Repr

/-- LoadModule embeds base/module.go `LoadModule`: one generated `set_<key>`
setter per configured key, then the module-specific functions (which win on a
name collision, as the second Go range loop overwrites). -/
def LoadModule {T : Type} (m : ConfigurableModule T) (_moduleName : String)
    (additionalFuncs : AssocMap Op) : AssocMap Op :=
  let sd := m.configs.foldl (fun sd kv => mapInsert sd ("set_" ++ kv.1) (Op.setter kv.1)) []
  additionalFuncs.foldl (fun sd kv => mapInsert sd kv.1 kv.2) sd

end Starport.Base

namespace Starport

/-- GoString view of a starlet `NullableStringOrBytes` (external starlet
types package): the empty string when the value is null. -/
def nullableGoString : Option String → String
  | Option.none => ""
  | some s => s

/-- IsNullOrEmpty of a starlet `NullableStringOrBytes`: null or empty. -/
def nullableIsNullOrEmpty : Option String → Bool
  | Option.none => true
  | some s => s == ""

/-- Blank test embedding `ystring.IsBlank` (external gut library): true when
the string is empty or all whitespace (the trimmed string is empty). -/
def isBlank (s : String) : Bool := s.data.all Char.isWhitespace

/-- Lower-casing embedding Go `strings.ToLower` as used on provider names and
response formats (character-wise lower-casing). -/
def strToLower (s : String) : String := ⟨s.data.map Char.toLower⟩

end Starport

namespace Starport.Core

open Starport Starport.Base

/-- CommonModule embeds charm/core `CommonModule`: the shared Charm API
configuration-and-client component every charm binding composes. -/
structure CommonModule where
  cfgMod : ConfigurableModule String

/-- NewCommonModule embeds charm/core `NewCommonModule`. -/
def NewCommonModule : CommonModule := ⟨NewConfigurableModule String⟩

/-- NewCommonModuleWithConfig embeds charm/core `NewCommonModuleWithConfig`
(the uint16 ports are stored through `strconv.Itoa`). -/
def NewCommonModuleWithConfig (host dataDirPath keyFilePath : String)
    (sshPort httpPort : Nat) : CommonModule :=
  let cm := NewConfigurableModule String
  let cm := SetConfigValue cm "host" host
  let cm := SetConfigValue cm "data_dir" dataDirPath
  let cm := SetConfigValue cm "key_file" keyFilePath
  let cm := SetConfigValue cm "ssh_port" (toString sshPort)
  let cm := SetConfigValue cm "http_port" (toString httpPort)
  ⟨cm⟩

/-- ExtendModuleLoader embeds charm/core `ExtendModuleLoader` (current
revision): the fixed get_config introspection operation is merged with the
binding-specific addons (addons win on collision) before the base loader adds
the generated setters. -/
def ExtendModuleLoader (m : CommonModule) (name : String) (addons : AssocMap Op) :
    AssocMap Op :=
  let commonFuncs : AssocMap Op := [("get_config", Op.getConfigOp)]
  let commonFuncs := addons.foldl (fun cf kv => mapInsert cf kv.1 kv.2) commonFuncs
  LoadModule m.cfgMod name commonFuncs

end Starport.Core

namespace Starport.Email

open Starport Starport.Base

/-- Module embeds email/resend.go `Module`. -/
structure Module where
  cfgMod : ConfigurableModule String

/-- NewModuleWithConfig embeds email/resend.go `NewModuleWithConfig`. -/
def NewModuleWithConfig (resendAPIKey senderDomain : String) : Module :=
  let cm := NewConfigurableModule String
  let cm := SetConfigValue cm "resend_api_key" resendAPIKey
  let cm := SetConfigValue cm "sender_domain" senderDomain
  ⟨cm⟩

/-- Loaded operation table of the email binding, embedding email/resend.go
`LoadModule`. -/
def emailLoadModule (m : Module) : AssocMap Op :=
  LoadModule m.cfgMod "email" [("send", Op.send)]

/-- Attachment embeds `resend.Attachment` (filename and raw content). -/
structure Attachment where
  filename : String
  content : String
deriving DecidableEq, Repr

/-- SendEmailRequest embeds the provider-native `resend.SendEmailRequest`
fields assembled by the send pipeline. -/
structure SendEmailRequest where
  fromAddr : String
  toAddrs : List String
  cc : List String
  bcc : List String
  replyTo : String
  subject : String
  html : String := ""
  text : String := ""
  attachments : List Attachment := []
deriving DecidableEq, Repr

/-- SendArgs holds the decoded script arguments of `email.send` (the
starlet adapter views after `starlark.UnpackArgs`): nullable strings are
`Option String`, `StringOrBytes` carry their GoString, one-or-many adapters
carry their normalized sequences. -/
structure SendArgs where
  subject : String := ""
  html : Option String := Option.none
  text : Option String := Option.none
  markdown : Option String := Option.none
  toAddrs : List String := []
  cc : List String := []
  bcc : List String := []
  fromAddr : String := ""
  fromId : String := ""
  replyTo : String := ""
  replyId : String := ""
  attachmentFiles : List String := []
  attachments : List (List (String × StarValue)) := []

/-- External collaborators of the send pipeline: the goldmark markdown
renderer, the filesystem read for attachment files, and the Resend network
client (keyed by the API key the client is constructed from). -/
structure EmailExternals where
  mdToHTML : String → String
  readFile : String → Except String String
  sendEmail : String → SendEmailRequest → Except String String

/-- StarString embeds `dataconv.StarString` (external starlet library): the
Go string content for string/bytes values, a printed form otherwise. -/
def starString : StarValue → String
  | StarValue.str s => s
  | StarValue.bytes s => s
  | StarValue.none => "None"
  | StarValue.bool b => if b then "True" else "False"
  | StarValue.int i => toString i
  | _ => "<value>"

/-- Attachment-file loading loop of email/resend.go `genSendFunc`: each path
is read fully and attached under its base name (the path util is external;
base-name extraction is the final path component). -/
def loadAttachmentFiles (ext : EmailExternals) : List String →
    Except String (List Attachment)
  | [] => Except.ok []
  | fp :: rest =>
    match ext.readFile fp with
    | Except.error e => Except.error e
    | Except.ok c =>
      match loadAttachmentFiles ext rest with
      | Except.error e => Except.error e
      | Except.ok tl =>
        let n := ((fp.splitOn "/").getLastD fp)
        Except.ok ({ filename := n, content := c } :: tl)

/-- Attachment-record loop of email/resend.go `genSendFunc`: each record must
carry a name and a content entry. -/
def loadAttachmentDicts : List (List (String × StarValue)) →
    Except String (List Attachment)
  | [] => Except.ok []
  | r :: rest =>
    match mapGet r "name" with
    | Option.none => Except.error "attachment must have a name"
    | some fn =>
      match mapGet r "content" with
      | Option.none => Except.error "attachment must have content"
      | some ct =>
        match loadAttachmentDicts rest with
        | Except.error e => Except.error e
        | Except.ok tl =>
          Except.ok ({ filename := starString fn, content := starString ct } :: tl)

/-- Sender-domain read of email/resend.go `genSendFunc`: the error of
`GetConfig` is discarded, leaving the zero value. -/
def senderDomainOf (m : Module) (w : World) : String :=
  match GetConfig m.cfgMod "sender_domain" w with
  | Except.ok v => v
  | Except.error _ => ""

end Starport.Email

namespace Starport.Email

open Starport Starport.Base

/-- Validation and request assembly of email/resend.go `genSendFunc`, in
source order: configuration load, cross-field validation (body presence,
non-empty recipients, resolvable sender), sender/reply resolution against the
configured domain, body selection (markdown rendered to HTML), and the two
attachment loops. Returns the API key together with the provider request. -/
def genSendPre (ext : EmailExternals) (m : Module) (a : SendArgs) (w : World) :
    Except String (String × SendEmailRequest) :=
  match GetConfig m.cfgMod "resend_api_key" w with
  | Except.error _ => Except.error "resend_api_key is not set"
  | Except.ok resendAPIKey =>
    let senderDomain := senderDomainOf m w
    if isBlank (nullableGoString a.html) && isBlank (nullableGoString a.text)
        && isBlank (nullableGoString a.markdown) then
      Except.error "one of body_html, body_text, or body_markdown must be non-blank"
    else if a.toAddrs.length == 0 then
      Except.error "to must be set and non-empty"
    else if isBlank a.fromAddr && isBlank a.fromId then
      Except.error "one of from or from_id must be non-blank"
    else
      let sendAddrRes : Except String String :=
        if isBlank a.fromAddr = false then Except.ok a.fromAddr
        else if isBlank a.fromId = false then
          if isBlank senderDomain = false then Except.ok (a.fromId ++ "@" ++ senderDomain)
          else Except.error "sender_domain should be set when from_id is used"
        else Except.error "no valid from or from_id found"
      match sendAddrRes with
      | Except.error e => Except.error e
      | Except.ok sendAddr =>
        let replyAddrRes : Except String String :=
          if isBlank a.replyTo = false then Except.ok a.replyTo
          else if isBlank a.replyId = false then
            if isBlank senderDomain = false then Except.ok (a.replyId ++ "@" ++ senderDomain)
            else Except.error "sender_domain should be set when reply_id is used"
          else Except.ok ""
        match replyAddrRes with
        | Except.error e => Except.error e
        | Except.ok replyAddr =>
          let req : SendEmailRequest :=
            { fromAddr := sendAddr
              toAddrs := a.toAddrs
              cc := a.cc
              bcc := a.bcc
              replyTo := replyAddr
              subject := a.subject }
          let req :=
            if nullableIsNullOrEmpty a.html = false then
              { req with html := nullableGoString a.html }
            else if nullableIsNullOrEmpty a.text = false then
              { req with text := nullableGoString a.text }
            else if nullableIsNullOrEmpty a.markdown = false then
              { req with html := ext.mdToHTML (nullableGoString a.markdown) }
            else req
          match loadAttachmentFiles ext a.attachmentFiles with
          | Except.error e => Except.error e
          | Except.ok fileAtts =>
            match loadAttachmentDicts a.attachments with
            | Except.error e => Except.error e
            | Except.ok dictAtts =>
              Except.ok (resendAPIKey, { req with attachments := fileAtts ++ dictAtts })

/-- Mail send operation of email/resend.go `genSendFunc`: on successful
assembly the Resend client is constructed from the API key and invoked once;
the pair's second component counts network sends (instrumentation for the
claims about whether the client is ever invoked). -/
def genSend (ext : EmailExternals) (m : Module) (a : SendArgs) (w : World) :
    Except String StarValue × Nat :=
  match genSendPre ext m a w with
  | Except.error e => (Except.error e, 0)
  | Except.ok (apiKey, req) =>
    match ext.sendEmail apiKey req with
    | Except.error e => (Except.error e, 1)
    | Except.ok sentId => (Except.ok (StarValue.str sentId), 1)

end Starport.Email

namespace Starport.LLM

open Starport Starport.Base

/-- Provider error classification, embedding the error shapes of the
go-openai client: an `*oai.APIError` carrying an HTTP status code (the shape
`errors.As` recognizes), or any other transport-level error. -/
inductive OAIError where
  | api (httpStatusCode : Nat) (message : String)
  | transport (message : String)
deriving DecidableEq, Repr

/-- Bad-request classification of llm/openai.go: an APIError whose
HTTPStatusCode is http.StatusBadRequest (400). -/
def isBadRequest : OAIError → Bool
  | OAIError.api code _ => code == 400
  | OAIError.transport _ => false

/-- Error text of a provider error (the `Error()` rendering used when the
error is propagated to the script). -/
def oaiErrorMessage : OAIError → String
  | OAIError.api code msg => "error, status code: " ++ toString code ++ ", message: " ++ msg
  | OAIError.transport msg => msg

/-- Retry loop body of llm/openai.go `genChatFunc`/`genDrawFunc`: invoke,
stop on success, stop without retrying on a bad-request APIError, otherwise
continue while attempts remain; `i` numbers the next invocation and the pair
counts the invocations made. -/
def retryLoopAux {R : Type} (call : Nat → Except OAIError R) (i : Nat)
    (cur : Except OAIError R) : Nat → Except OAIError R × Nat
  | 0 => (cur, i)
  | remaining + 1 =>
    match call i with
    | Except.ok r => (Except.ok r, i + 1)
    | Except.error e =>
      if isBadRequest e then (Except.error e, i + 1)
      else retryLoopAux call (i + 1) (Except.error e) remaining

/-- Bounded invoke-with-retry of llm/openai.go (`for i := 0; i < retryTimes;
i++`): when the loop never runs the zero-valued response and nil error
survive it, exactly as in the Go source. -/
def invokeWithRetry {R : Type} (call : Nat → Except OAIError R) (zeroResp : R)
    (retryTimes : Int) : Except OAIError R × Nat :=
  retryLoopAux call 0 (Except.ok zeroResp) retryTimes.toNat

/-- Client embeds the `*oai.Client` value: either one injected through
SetClient, or one freshly constructed by `oai.NewClientWithConfig` from an
Azure or vanilla-OpenAI client configuration. -/
inductive Client where
  | preset (id : Nat)
  | azure (apiKey endpointURL apiVersion mappedModel : String)
  | openai (apiKey baseURL : String)
deriving DecidableEq, Repr

/-- Default base URL of `oai.DefaultConfig` (external go-openai constant). -/
def defaultOpenAIBaseURL : String := "https://api.openai.com/v1"

/-- Module embeds llm/openai.go `Module`: the configuration component plus
the optional explicitly-injected client. -/
structure Module where
  cfgMod : ConfigurableModule String
  cli : Option Client := Option.none

/-- NewModuleWithConfig embeds llm/openai.go `NewModuleWithConfig`. -/
def NewModuleWithConfig (serviceProvider endpointURL apiKey gptModel dalleModel : String) :
    Module :=
  let cm := NewConfigurableModule String
  let cm := SetConfigValue cm "openai_provider" serviceProvider
  let cm := SetConfigValue cm "openai_endpoint_url" endpointURL
  let cm := SetConfigValue cm "openai_api_key" apiKey
  let cm := SetConfigValue cm "openai_gpt_model" gptModel
  let cm := SetConfigValue cm "openai_dalle_model" dalleModel
  { cfgMod := cm }

/-- SetClient embeds llm/openai.go `SetClient`. -/
def SetClient (m : Module) (cli : Client) : Module := { m with cli := some cli }

/-- Loaded operation table of the llm binding, embedding llm/openai.go
`LoadModule`. -/
def llmLoadModule (m : Module) : AssocMap Op :=
  LoadModule m.cfgMod "llm"
    [("message", Op.message), ("chat", Op.chat), ("draw", Op.draw)]

/-- getClient embeds llm/openai.go `getClient`: reuse the explicitly-set
client when present, otherwise read the provider (defaulting to openai on a
missing key), require the API key, and construct a new client configuration;
the endpoint read error is only consulted in the Azure branch, the zero-value
endpoint standing in elsewhere. The constructed client is returned without
being stored on the module. -/
def getClient (m : Module) (model : String) (w : World) : Except String Client :=
  match m.cli with
  | some cli => Except.ok cli
  | Option.none =>
    let provider :=
      match GetConfig m.cfgMod "openai_provider" w with
      | Except.ok p => p
      | Except.error _ => "openai"
    match GetConfig m.cfgMod "openai_api_key" w with
    | Except.error e => Except.error e
    | Except.ok apiKey =>
      let endpointRes := GetConfig m.cfgMod "openai_endpoint_url" w
      match strToLower provider with
      | "azure" =>
        match endpointRes with
        | Except.error e => Except.error e
        | Except.ok endpointURL =>
          Except.ok (Client.azure apiKey endpointURL "2024-02-01" model)
      | "openai" =>
        let endpointURL :=
          match endpointRes with
          | Except.ok u => u
          | Except.error _ => ""
        Except.ok (Client.openai apiKey
          (if endpointURL ≠ "" then endpointURL else defaultOpenAIBaseURL))
      | _ => Except.error ("unsupported provider: " ++ provider)

/-- getModel embeds llm/openai.go `getModel`: the explicit value wins, the
configured value is next, and the empty string reports absence. -/
def getModel (m : Module) (key val : String) (w : World) : String :=
  if val ≠ "" then val
  else
    match GetConfig m.cfgMod key w with
    | Except.ok model => model
    | Except.error _ => ""

end Starport.LLM

namespace Starport.LLM

open Starport Starport.Base

/-- ChatMessageImageURL embeds `oai.ChatMessageImageURL`. -/
structure ChatMessageImageURL where
  url : String
  detail : String
deriving Repr

/-- ChatMessagePart embeds `oai.ChatMessagePart`. -/
structure ChatMessagePart where
  type : String
  text : String := ""
  imageURL : Option ChatMessageImageURL := Option.none
deriving Repr

/-- ChatCompletionMessage embeds `oai.ChatCompletionMessage` (the fields the
source populates). -/
structure ChatCompletionMessage where
  role : String
  content : String := ""
  multiContent : List ChatMessagePart := []
deriving Repr

/-- ChatCompletionResponseFormat embeds `oai.ChatCompletionResponseFormat`. -/
structure ChatCompletionResponseFormat where
  type : String
deriving Repr

/-- ChatCompletionRequest embeds the `oai.ChatCompletionRequest` fields the
source assembles. -/
structure ChatCompletionRequest where
  model : String
  messages : List ChatCompletionMessage
  maxTokens : Int
  temperature : Float
  topP : Float
  n : Int
  stop : List String
  presencePenalty : Float
  frequencyPenalty : Float
  responseFormat : Option ChatCompletionResponseFormat := Option.none
deriving Repr

/-- ChatMessageOut embeds the message of a response choice. -/
structure ChatMessageOut where
  role : String := ""
  content : String := ""
deriving Repr

/-- ChatChoice embeds `oai.ChatCompletionChoice`. -/
structure ChatChoice where
  index : Int := 0
  message : ChatMessageOut := {}
  finishReason : String := ""
deriving Repr

/-- ChatCompletionResponse embeds the `oai.ChatCompletionResponse` fields the
source consumes (its Go zero value is `{}`). -/
structure ChatCompletionResponse where
  id : String := ""
  model : String := ""
  choices : List ChatChoice := []
deriving Repr

/-- ImageRequest embeds `oai.ImageRequest`. -/
structure ImageRequest where
  prompt : String
  model : String
  n : Int
  quality : String
  size : String
  style : String
  responseFormat : String
deriving DecidableEq, Repr

/-- ImageResponseDataInner embeds `oai.ImageResponseDataInner`. -/
structure ImageResponseDataInner where
  url : String := ""
  b64JSON : String := ""
deriving DecidableEq, Repr

/-- ImageResponse embeds the `oai.ImageResponse` fields the source consumes
(its Go zero value is `{}`). -/
structure ImageResponse where
  created : Int := 0
  data : List ImageResponseDataInner := []
deriving DecidableEq, Repr

/-- GoFailure separates the two ways a Go handler terminates abnormally: a
returned error value, or a runtime panic (such as an out-of-range slice
index, which no error path catches). -/
inductive GoFailure where
  | err (msg : String)
  | panic (msg : String)
deriving DecidableEq, Repr

/-- getStringFromDict embeds llm/openai.go `getStringFromDict`: a missing
key, a lookup failure or a non-string/bytes value yield the empty string and
false. -/
def getStringFromDict (d : List (String × StarValue)) (key : String) : String × Bool :=
  match mapGet d key with
  | Option.none => ("", false)
  | some (StarValue.str s) => (s, true)
  | some (StarValue.bytes b) => (b, true)
  | some _ => ("", false)

/-- External collaborators of the llm pipelines: the two network operations
of the OpenAI client (indexed by the attempt number, since retried attempts
may observe different outcomes), the file-to-data-URI conversion
`imageFileToBase64` (os + base64 + mime), the in-memory conversion
`imageDataToBase64` (base64 + content-type sniffing), and the composite
base64-decode / png-decode / png-re-encode step of the draw result path. -/
structure LLMExternals where
  chatCall : Client → ChatCompletionRequest → Nat → Except OAIError ChatCompletionResponse
  imageCall : Client → ImageRequest → Nat → Except OAIError ImageResponse
  readImageFileB64 : String → Except String String
  imageDataToB64 : String → String
  b64DecodePNGRoundTrip : String → Except String String

/-- Message-list conversion of llm/openai.go `messagesToChatMessages`, with
`i` the zero-based index of the message under conversion (error messages are
one-based): a role is required, at least one content field is required, a
text-only message becomes plain content, and otherwise the multi-content
parts are assembled in source order (text, image URL, inline image bytes,
image file). -/
def msgsToChatAux (ext : LLMExternals) (i : Nat) :
    List (List (String × StarValue)) → Except String (List ChatCompletionMessage)
  | [] => Except.ok []
  | md :: rest =>
    let (role, okR) := getStringFromDict md "role"
    if !okR then Except.error ("message " ++ toString (i + 1) ++ ": role is required")
    else
      let (text, okT) := getStringFromDict md "text"
      let (imageBytes, okI) := getStringFromDict md "image"
      let (imageFile, okF) := getStringFromDict md "image_file"
      let (imageURL, okU) := getStringFromDict md "image_url"
      let okImg := okI || okF || okU
      if !(okT || okImg) then
        Except.error ("message " ++ toString (i + 1) ++
          ": at least one of text, image, image_file, or image_url is required")
      else if okT && !okImg then
        match msgsToChatAux ext (i + 1) rest with
        | Except.error e => Except.error e
        | Except.ok tl => Except.ok ({ role := role, content := text } :: tl)
      else
        let mcp : List ChatMessagePart :=
          (if okT then [{ type := "text", text := text }] else []) ++
          (if okU then
            [{ type := "image_url",
               imageURL := some { url := imageURL, detail := "auto" } }] else []) ++
          (if okI then
            [{ type := "image_url",
               imageURL := some { url := ext.imageDataToB64 imageBytes, detail := "auto" } }]
           else [])
        let withFile : Except String (List ChatMessagePart) :=
          if okF then
            match ext.readImageFileB64 imageFile with
            | Except.error e => Except.error ("message " ++ toString (i + 1) ++ ": " ++ e)
            | Except.ok b64 =>
              Except.ok (mcp ++
                [{ type := "image_url", imageURL := some { url := b64, detail := "auto" } }])
          else Except.ok mcp
        match withFile with
        | Except.error e => Except.error e
        | Except.ok parts =>
          match msgsToChatAux ext (i + 1) rest with
          | Except.error e => Except.error e
          | Except.ok tl => Except.ok ({ role := role, multiContent := parts } :: tl)

/-- messagesToChatMessages of llm/openai.go, started at the first message. -/
def messagesToChatMessages (ext : LLMExternals) (msgs : List (List (String × StarValue))) :
    Except String (List ChatCompletionMessage) :=
  msgsToChatAux ext 0 msgs

end Starport.LLM

namespace Starport.LLM

open Starport Starport.Base

/-- ChatArgs holds the decoded script arguments of `llm.chat` with the
defaults of llm/openai.go `genChatFunc`; nullable adapters are `Option
String`, one-or-many adapters carry their normalized sequences. -/
structure ChatArgs where
  text : Option String := Option.none
  image : Option String := Option.none
  imageFile : Option String := Option.none
  imageURL : Option String := Option.none
  messages : List (List (String × StarValue)) := []
  model : Option String := Option.none
  n : Int := 1
  maxTokens : Int := 64
  temperature : Float := 1.0
  topP : Float := 1.0
  frequencyPenalty : Float := 0.0
  presencePenalty : Float := 0.0
  stop : List String := []
  responseFormat : Option String := some "text"
  retry : Int := 1
  fullResponse : Bool := false
  allowError : Bool := false

/-- DrawArgs holds the decoded script arguments of `llm.draw` with the
defaults of llm/openai.go `genDrawFunc`. -/
structure DrawArgs where
  prompt : Option String := Option.none
  model : Option String := Option.none
  n : Int := 1
  quality : Option String := some "standard"
  size : Option String := some "1024x1024"
  style : Option String := some "vivid"
  responseFormat : Option String := some "url"
  retry : Int := 1
  fullResponse : Bool := false
  allowError : Bool := false

/-- User-message dictionary prepended by `genChatFunc`: every non-null,
non-empty field of the prepared text/image set becomes an entry, and when any
entry exists the user role is added. -/
def userMsgDict (a : ChatArgs) : List (String × StarValue) :=
  (if nullableIsNullOrEmpty a.text = false
    then [("text", StarValue.str (nullableGoString a.text))] else []) ++
  (if nullableIsNullOrEmpty a.image = false
    then [("image", StarValue.str (nullableGoString a.image))] else []) ++
  (if nullableIsNullOrEmpty a.imageFile = false
    then [("image_file", StarValue.str (nullableGoString a.imageFile))] else []) ++
  (if nullableIsNullOrEmpty a.imageURL = false
    then [("image_url", StarValue.str (nullableGoString a.imageURL))] else [])

/-- Full-response marshalling of a chat response, embedding
`structToStarlark` (JSON marshal followed by `DecodeStarlarkJSON`). -/
def chatResponseToStar (resp : ChatCompletionResponse) : StarValue :=
  StarValue.dict
    [("id", StarValue.str resp.id),
     ("model", StarValue.str resp.model),
     ("choices", StarValue.list (resp.choices.map (fun c =>
        StarValue.dict
          [("index", StarValue.int c.index),
           ("message", StarValue.dict
              [("role", StarValue.str c.message.role),
               ("content", StarValue.str c.message.content)]),
           ("finish_reason", StarValue.str c.finishReason)])))]

/-- Full-response marshalling of an image response, embedding
`structToStarlark`. -/
def imageResponseToStar (resp : ImageResponse) : StarValue :=
  StarValue.dict
    [("created", StarValue.int resp.created),
     ("data", StarValue.list (resp.data.map (fun d =>
        StarValue.dict
          [("url", StarValue.str d.url),
           ("b64_json", StarValue.str d.b64JSON)])))]

/-- Simplified-mode shaping of a chat response (`genChatFunc` after a
successful invoke): zero choices yield None, one requested choice yields the
first content string, otherwise the contents in provider order. -/
def shapeChatSimple (n : Int) (choices : List ChatChoice) : Except GoFailure StarValue :=
  if choices.length == 0 then Except.ok StarValue.none
  else if n == 1 then
    match choices with
    | [] => Except.error (GoFailure.panic "runtime error: index out of range")
    | c :: _ => Except.ok (StarValue.str c.message.content)
  else Except.ok (StarValue.list (choices.map (fun c => StarValue.str c.message.content)))

/-- Image extraction of `genDrawFunc`: the URL string in URL mode, otherwise
the base64-decode / png-decode / png-re-encode round trip of the b64 payload
returned as raw bytes. -/
def extractImage (ext : LLMExternals) (isURL : Bool) (di : ImageResponseDataInner) :
    Except GoFailure StarValue :=
  if isURL then Except.ok (StarValue.str di.url)
  else
    match ext.b64DecodePNGRoundTrip di.b64JSON with
    | Except.error e => Except.error (GoFailure.err e)
    | Except.ok bs => Except.ok (StarValue.bytes bs)

/-- List extraction loop of `genDrawFunc` for the many-choices branch. -/
def extractImages (ext : LLMExternals) (isURL : Bool) :
    List ImageResponseDataInner → Except GoFailure (List StarValue)
  | [] => Except.ok []
  | di :: rest =>
    match extractImage ext isURL di with
    | Except.error e => Except.error e
    | Except.ok v =>
      match extractImages ext isURL rest with
      | Except.error e => Except.error e
      | Except.ok tl => Except.ok (v :: tl)

/-- Simplified-mode shaping of a draw response (`genDrawFunc` after a
successful invoke): with one requested choice the first data item is indexed
unconditionally — a Go slice index that panics when the data array is empty —
otherwise every item is extracted into a list. -/
def shapeDrawSimple (ext : LLMExternals) (isURL : Bool) (n : Int)
    (data : List ImageResponseDataInner) : Except GoFailure StarValue :=
  if n == 1 then
    match data with
    | [] => Except.error (GoFailure.panic "runtime error: index out of range")
    | di :: _ => extractImage ext isURL di
  else
    match extractImages ext isURL data with
    | Except.error e => Except.error e
    | Except.ok vs => Except.ok (StarValue.list vs)

end Starport.LLM

namespace Starport.LLM

open Starport Starport.Base

/-- Pre-invoke stage of llm/openai.go `genChatFunc`, in source order: resolve
the model (explicit argument, else configured default), prepend the user
message when any content field was given, convert the message dictionaries,
assemble the provider request, check the response format, and acquire the
client. -/
def genChatPre (ext : LLMExternals) (m : Module) (a : ChatArgs) (w : World) :
    Except String (Client × ChatCompletionRequest) :=
  let model := getModel m "openai_gpt_model" (nullableGoString a.model) w
  if model = "" then Except.error "gpt model is not set"
  else
    let usrMd := userMsgDict a
    let allMsgs :=
      if usrMd.length > 0 then (usrMd ++ [("role", StarValue.str "user")]) :: a.messages
      else a.messages
    match messagesToChatMessages ext allMsgs with
    | Except.error e => Except.error e
    | Except.ok chatMessages =>
      let stopWords := a.stop
      let rf := nullableGoString a.responseFormat
      let fmtRes : Except String ChatCompletionResponseFormat :=
        if rf = "json" then Except.ok { type := "json_object" }
        else if rf = "text" then Except.ok { type := "text" }
        else Except.error ("unsupported response format: " ++ rf)
      match fmtRes with
      | Except.error e => Except.error e
      | Except.ok rfmt =>
        let req : ChatCompletionRequest :=
          { model := model
            messages := chatMessages
            maxTokens := a.maxTokens
            temperature := a.temperature
            topP := a.topP
            n := a.n
            stop := stopWords
            presencePenalty := a.presencePenalty
            frequencyPenalty := a.frequencyPenalty
            responseFormat := some rfmt }
        match getClient m model w with
        | Except.error e => Except.error e
        | Except.ok cli => Except.ok (cli, req)

/-- Post-invoke stage of `genChatFunc`: the bounded retry loop, the
allow-error suppression of a failed invoke, and the full-versus-simplified
response shaping. -/
def genChatPost (ext : LLMExternals) (a : ChatArgs) (cli : Client)
    (req : ChatCompletionRequest) : Except GoFailure StarValue :=
  match (invokeWithRetry (ext.chatCall cli req) {} a.retry).1 with
  | Except.error e =>
    if a.allowError then Except.ok StarValue.none
    else Except.error (GoFailure.err (oaiErrorMessage e))
  | Except.ok resp =>
    if a.fullResponse then Except.ok (chatResponseToStar resp)
    else shapeChatSimple a.n resp.choices

/-- Chat operation of llm/openai.go `genChatFunc`. -/
def genChat (ext : LLMExternals) (m : Module) (a : ChatArgs) (w : World) :
    Except GoFailure StarValue :=
  match genChatPre ext m a w with
  | Except.error e => Except.error (GoFailure.err e)
  | Except.ok (cli, req) => genChatPost ext a cli req

/-- Pre-invoke stage of llm/openai.go `genDrawFunc`, in source order: require
a prompt, resolve the dalle model, assemble the image request, and acquire
the client. -/
def genDrawPre (m : Module) (a : DrawArgs) (w : World) :
    Except String (Client × ImageRequest) :=
  if nullableIsNullOrEmpty a.prompt then Except.error "prompt is required"
  else
    let model := getModel m "openai_dalle_model" (nullableGoString a.model) w
    if model = "" then Except.error "dalle model is not set"
    else
      let req : ImageRequest :=
        { prompt := nullableGoString a.prompt
          model := model
          n := a.n
          quality := nullableGoString a.quality
          size := nullableGoString a.size
          style := nullableGoString a.style
          responseFormat := nullableGoString a.responseFormat }
      match getClient m model w with
      | Except.error e => Except.error e
      | Except.ok cli => Except.ok (cli, req)

/-- Post-invoke stage of `genDrawFunc`: retry loop, allow-error suppression,
then full marshalling or simplified extraction (URL mode decided by the
lower-cased response format). -/
def genDrawPost (ext : LLMExternals) (a : DrawArgs) (cli : Client) (req : ImageRequest) :
    Except GoFailure StarValue :=
  match (invokeWithRetry (ext.imageCall cli req) {} a.retry).1 with
  | Except.error e =>
    if a.allowError then Except.ok StarValue.none
    else Except.error (GoFailure.err (oaiErrorMessage e))
  | Except.ok resp =>
    if a.fullResponse then Except.ok (imageResponseToStar resp)
    else
      let isURL := strToLower (nullableGoString a.responseFormat) == "url"
      shapeDrawSimple ext isURL a.n resp.data

/-- Draw operation of llm/openai.go `genDrawFunc`. -/
def genDraw (ext : LLMExternals) (m : Module) (a : DrawArgs) (w : World) :
    Except GoFailure StarValue :=
  match genDrawPre m a w with
  | Except.error e => Except.error (GoFailure.err e)
  | Except.ok (cli, req) => genDrawPost ext a cli req

end Starport.LLM

namespace Starport.CKV

open Starport Starport.Base

/-- KVClient stands for an opened `*kv.KV` database handle; the generation
tag distinguishes separately-constructed handles for the same name. -/
structure KVClient where
  name : String
  generation : Nat
deriving DecidableEq, Repr

/-- Module embeds charm/ckv/kv.go `Module`: the embedded CommonModule
configuration plus the per-database client cache. -/
structure Module where
  cfgMod : ConfigurableModule String
  dbs : AssocMap KVClient

/-- External collaborators of the KV binding: the composite client
construction (`InitializeClient`, `DataPath` and `kv.Open` chain) and the
local reset `dc.Reset()` of the badger-backed store. -/
structure KVExternals where
  openDB : String → Except String KVClient
  resetDB : KVClient → Except String Unit

/-- Well-known default database name of charm/ckv/kv.go. -/
def defaultDB : String := "starcli.kv.user.default"

/-- getDBClient embeds charm/ckv/kv.go `getDBClient`: an empty name selects
the default database, a cached handle is reused, and otherwise a handle is
opened and cached under the normalized name. The trailing Bool is
instrumentation recording whether a fresh handle was constructed. -/
def getDBClient (ext : KVExternals) (m : Module) (name : String) :
    Except String KVClient × Module × Bool :=
  let name2 := if name = "" then defaultDB else name
  match mapGet m.dbs name2 with
  | some db => (Except.ok db, m, false)
  | Option.none =>
    match ext.openDB name2 with
    | Except.error e => (Except.error e, m, false)
    | Except.ok db => (Except.ok db, { m with dbs := mapInsert m.dbs name2 db }, true)

/-- resetLocalCopy embeds charm/ckv/kv.go `resetLocalCopy`: acquire the
handle for the requested database (empty meaning the default), reset it, and
delete the cache entry keyed by the literal argument string. -/
def resetLocalCopy (ext : KVExternals) (m : Module) (db : String) :
    Except String StarValue × Module :=
  match getDBClient ext m db with
  | (Except.error e, m2, _) => (Except.error e, m2)
  | (Except.ok dc, m2, _) =>
    match ext.resetDB dc with
    | Except.error e => (Except.error e, m2)
    | Except.ok _ => (Except.ok StarValue.none, { m2 with dbs := mapErase m2.dbs db })

/-- Loaded operation table of the ckv binding, embedding charm/ckv/kv.go
`LoadModule` through the common `ExtendModuleLoader`. -/
def ckvLoadModule (m : Module) : AssocMap Op :=
  Starport.Core.ExtendModuleLoader ⟨m.cfgMod⟩ "ckv"
    [("get", Op.kvGet), ("set", Op.kvSet),
     ("get_json", Op.kvGetJSON), ("set_json", Op.kvSetJSON),
     ("delete", Op.kvDelete), ("list", Op.kvList),
     ("list_keys", Op.kvListKeys), ("list_values", Op.kvListValues),
     ("list_db", Op.kvListDB), ("sync", Op.kvSync), ("reset", Op.kvReset)]

end Starport.CKV

namespace Starport.Cacc

open Starport Starport.Base

/-- Loaded operation table of the cacc (Charm accounts) binding, embedding
charm/cacc/account.go `LoadModule` through the common `ExtendModuleLoader`. -/
def caccLoadModule (m : Starport.Core.CommonModule) : AssocMap Op :=
  Starport.Core.ExtendModuleLoader m "cacc"
    [("set_username", Op.setUsername), ("get_username", Op.getUsername),
     ("get_host", Op.getHost), ("get_bio", Op.getBio),
     ("get_userid", Op.getUserId), ("get_key_files", Op.getKeyFiles),
     ("get_keys", Op.getKeys)]

end Starport.Cacc

namespace Starport

open Starport.Base

/-- Claim C5: ConfigStore get(k) fails with a not-configured error exactly
when k was never bound or its bound producer is nil; otherwise it invokes the
bound producer at the read instant, so after set(k, fn) a read at instant w
returns fn at w — the producer's current value, not a set-time snapshot. -/
theorem getConfig_contract {T : Type} (m : ConfigurableModule T) (k : String) (w : World) :
    ((∃ e, GetConfig m k w = Except.error e) ↔
      (mapGet m.configs k = none ∨ mapGet m.configs k = some none))
  ∧ (∀ fn : ConfigGetter T, GetConfig (SetConfig m k (some fn)) k w = Except.ok (fn w)) := by
  constructor
  · constructor
    · intro ⟨e, he⟩
      unfold GetConfig at he
      match hg : mapGet m.configs k with
      | none => exact Or.inl rfl
      | some none => exact Or.inr rfl
      | some (some g) => rw [hg] at he; exact absurd he (by simp)
    · intro h
      rcases h with h | h <;> · unfold GetConfig; rw [h]; exact ⟨_, rfl⟩
  · intro fn
    unfold GetConfig SetConfig
    rw [show mapGet (mapInsert m.configs k (some fn)) k = some (some fn) from
      mapGet_mapInsert_self _ _ _]

/-- Witness for C5: on a fresh store a read fails, and after binding a
producer that renders the read instant, reads at instants 5 and 6 each
return the producer's value at that very instant. -/
theorem getConfig_contract_witness :
    (mapGet (NewConfigurableModule String).configs "endpoint" = none ∨
      mapGet (NewConfigurableModule String).configs "endpoint" = some none)
  ∧ GetConfig (SetConfig (NewConfigurableModule String) "endpoint"
      (some (fun w => toString w))) "endpoint" 5 = Except.ok "5"
  ∧ GetConfig (SetConfig (NewConfigurableModule String) "endpoint"
      (some (fun w => toString w))) "endpoint" 6 = Except.ok "6" := by
  refine ⟨?_, ?_, ?_⟩
  · exact (getConfig_contract (NewConfigurableModule String) "endpoint" 0).1.mp ⟨_, rfl⟩
  · exact (getConfig_contract (NewConfigurableModule String) "endpoint" 5).2 (fun w => toString w)
  · exact (getConfig_contract (NewConfigurableModule String) "endpoint" 6).2 (fun w => toString w)

/-- Claim C9: the generated set_k setter accepts exactly one
positional-or-keyword value named k, fails with the type-mismatch error when
the unmarshalled value cannot be asserted to the store's value type, and
otherwise binds k to a producer constantly returning the decoded value,
overwriting any previous binding. -/
theorem genSetConfig_contract {T : Type} (tt : GoType T) (m : ConfigurableModule T)
    (name : String) (v : StarValue) :
    (genSetConfig tt m name [] [] = Except.error ("missing argument for " ++ name))
  ∧ (∀ v2, genSetConfig tt m name [v, v2] [] = Except.error "too many positional arguments")
  ∧ (∀ k, k ≠ name → genSetConfig tt m name [] [(k, v)] =
       Except.error ("unexpected keyword argument " ++ k))
  ∧ (genSetConfig tt m name [v] [] = genSetConfig tt m name [] [(name, v)])
  ∧ (tt.cast (unmarshal v) = none →
       genSetConfig tt m name [v] [] =
         Except.error ("value type mismatch, expected " ++ tt.name ++ ", got " ++
           goTypeName (unmarshal v)))
  ∧ (∀ vt, tt.cast (unmarshal v) = some vt →
       ∃ m2, genSetConfig tt m name [v] [] = Except.ok m2 ∧
         ∀ w, GetConfig m2 name w = Except.ok vt) := by
  refine ⟨?_, ?_, ?_, ?_, ?_, ?_⟩
  · simp [genSetConfig, unpackOneArg, assignKwargs]
  · intro v2
    simp [genSetConfig, unpackOneArg]
  · intro k hk
    simp [genSetConfig, unpackOneArg, assignKwargs, hk]
  · simp [genSetConfig, unpackOneArg, assignKwargs]
  · intro hc
    simp [genSetConfig, unpackOneArg, assignKwargs, hc]
  · intro vt hc
    refine ⟨SetConfig m name (some (fun _ => vt)), ?_, ?_⟩
    · simp [genSetConfig, unpackOneArg, assignKwargs, hc]
    · intro w
      unfold GetConfig SetConfig
      rw [show mapGet (mapInsert m.configs name (some (fun _ => vt))) name =
        some (some (fun _ => vt)) from mapGet_mapInsert_self _ _ _]

/-- Witness for C9: setting sender_domain to the integer 42 fails with the
type-mismatch error, while a string value is accepted and overwrites the
previous binding on every later read. -/
theorem genSetConfig_contract_witness :
    genSetConfig stringGoType (SetConfigValue (NewConfigurableModule String)
        "sender_domain" "old.example") "sender_domain" [StarValue.int 42] [] =
      Except.error "value type mismatch, expected string, got int64"
  ∧ ∃ m2, genSetConfig stringGoType (SetConfigValue (NewConfigurableModule String)
        "sender_domain" "old.example") "sender_domain" [StarValue.str "example.com"] [] =
        Except.ok m2 ∧ ∀ w, GetConfig m2 "sender_domain" w = Except.ok "example.com" := by
  constructor
  · exact (genSetConfig_contract stringGoType (SetConfigValue (NewConfigurableModule String)
      "sender_domain" "old.example") "sender_domain" (StarValue.int 42)).2.2.2.2.1 rfl
  · exact (genSetConfig_contract stringGoType (SetConfigValue (NewConfigurableModule String)
      "sender_domain" "old.example") "sender_domain" (StarValue.str "example.com")).2.2.2.2.2
      "example.com" rfl

end Starport

namespace Starport.LLM

open Starport

theorem retryLoopAux_succ {R : Type} (call : Nat → Except OAIError R) (i : Nat)
    (cur : Except OAIError R) (k : Nat) :
    retryLoopAux call i cur (k + 1) =
      (match call i with
       | Except.ok r => (Except.ok r, i + 1)
       | Except.error e =>
         if isBadRequest e then (Except.error e, i + 1)
         else retryLoopAux call (i + 1) (Except.error e) k) := rfl

theorem retryLoopAux_count_le {R : Type} (call : Nat → Except OAIError R)
    (rem : Nat) : ∀ (i : Nat) (cur : Except OAIError R),
    (retryLoopAux call i cur rem).2 ≤ i + rem := by
  induction rem with
  | zero => intro i cur; simp [retryLoopAux]
  | succ k ih =>
    intro i cur
    rw [retryLoopAux_succ]
    rcases call i with e | r
    · by_cases hb : isBadRequest e
      · simp [hb]
      · simp [hb]
        calc (retryLoopAux call (i + 1) (Except.error e) k).2 ≤ i + 1 + k := ih (i + 1) _
          _ ≤ i + (k + 1) := by omega
    · simp

theorem retryLoopAux_first_success {R : Type} (call : Nat → Except OAIError R)
    (rem : Nat) : ∀ (i : Nat) (cur : Except OAIError R) (j : Nat) (v : R),
    i ≤ j → j < (retryLoopAux call i cur rem).2 → call j = Except.ok v →
    retryLoopAux call i cur rem = (Except.ok v, j + 1) := by
  induction rem with
  | zero =>
    intro i cur j v hij hlt _
    simp [retryLoopAux] at hlt
    omega
  | succ k ih =>
    intro i cur j v hij hlt hj
    rw [retryLoopAux_succ] at hlt ⊢
    rcases hc : call i with e | r
    · rw [hc] at hlt
      by_cases hb : isBadRequest e
      · simp [hb] at hlt
        have hji : j = i := by omega
        subst hji
        rw [hj] at hc
        cases hc
      · simp [hb] at hlt ⊢
        rcases Nat.lt_or_ge i j with hij2 | hij2
        · exact ih (i + 1) _ j v hij2 hlt hj
        · have hji : j = i := by omega
          subst hji
          rw [hj] at hc
          cases hc
    · rw [hc] at hlt
      simp at hlt
      have hji : j = i := by omega
      subst hji
      rw [hj] at hc
      cases hc
      rfl

theorem retryLoopAux_bad_request_stops {R : Type} (call : Nat → Except OAIError R)
    (rem : Nat) : ∀ (i : Nat) (cur : Except OAIError R) (j : Nat) (e : OAIError),
    i ≤ j → j < (retryLoopAux call i cur rem).2 → call j = Except.error e →
    isBadRequest e = true → retryLoopAux call i cur rem = (Except.error e, j + 1) := by
  induction rem with
  | zero =>
    intro i cur j e hij hlt _ _
    simp [retryLoopAux] at hlt
    omega
  | succ k ih =>
    intro i cur j e hij hlt hj hbad
    rw [retryLoopAux_succ] at hlt ⊢
    rcases hc : call i with e2 | r
    · rw [hc] at hlt
      by_cases hb : isBadRequest e2
      · simp [hb] at hlt
        have hji : j = i := by omega
        subst hji
        rw [hj] at hc
        cases hc
        simp [hbad]
      · simp [hb] at hlt ⊢
        rcases Nat.lt_or_ge i j with hij2 | hij2
        · exact ih (i + 1) _ j e hij2 hlt hj hbad
        · have hji : j = i := by omega
          subst hji
          rw [hj] at hc
          cases hc
          rw [hbad] at hb
          exact absurd rfl hb
    · rw [hc] at hlt
      simp at hlt
      have hji : j = i := by omega
      subst hji
      rw [hj] at hc
      cases hc

/-- Claim C2: with retry budget r at least 1 and an abstract provider client,
the operation is invoked at most r times; attempts stop at the first success,
returning it; a bad-request-classified failure on any attempt stops the loop
immediately regardless of remaining budget; a client failing bad-request on
every attempt is invoked exactly once; and a client failing twice with a
retryable error before succeeding is, under r = 3, invoked exactly three
times with the success returned. -/
theorem retry_policy {R : Type} (call : Nat → Except OAIError R) (zeroResp : R)
    (r : Int) (hr : 1 ≤ r) :
    ((invokeWithRetry call zeroResp r).2 ≤ r.toNat)
  ∧ (∀ j v, j < (invokeWithRetry call zeroResp r).2 → call j = Except.ok v →
       invokeWithRetry call zeroResp r = (Except.ok v, j + 1))
  ∧ (∀ j e, j < (invokeWithRetry call zeroResp r).2 → call j = Except.error e →
       isBadRequest e = true → invokeWithRetry call zeroResp r = (Except.error e, j + 1))
  ∧ (∀ e, isBadRequest e = true → (∀ i, call i = Except.error e) →
       invokeWithRetry call zeroResp r = (Except.error e, 1))
  ∧ (∀ e1 e2 v, isBadRequest e1 = false → isBadRequest e2 = false →
       call 0 = Except.error e1 → call 1 = Except.error e2 → call 2 = Except.ok v →
       r = 3 → invokeWithRetry call zeroResp r = (Except.ok v, 3)) := by
  refine ⟨?_, ?_, ?_, ?_, ?_⟩
  · have h := retryLoopAux_count_le call r.toNat 0 (Except.ok zeroResp)
    simpa [invokeWithRetry] using h
  · intro j v hlt hj
    exact retryLoopAux_first_success call r.toNat 0 _ j v (Nat.zero_le j) hlt hj
  · intro j e hlt hj hbad
    exact retryLoopAux_bad_request_stops call r.toNat 0 _ j e (Nat.zero_le j) hlt hj hbad
  · intro e hbad hcall
    have h1 : r.toNat = (r.toNat - 1) + 1 := by omega
    unfold invokeWithRetry
    rw [h1]
    unfold retryLoopAux
    rw [hcall 0]
    simp [hbad]
  · intro e1 e2 v hb1 hb2 h0 h1 h2 hr3
    subst hr3
    unfold invokeWithRetry
    rw [show ((3:Int).toNat) = 3 from rfl]
    unfold retryLoopAux
    rw [h0]
    simp [hb1]
    unfold retryLoopAux
    rw [h1]
    simp [hb2]
    unfold retryLoopAux
    rw [h2]

/-- Witness for C2: a client failing with a retryable transport error on the
first two attempts and succeeding on the third, under r = 3, is invoked
exactly three times and the success value is returned; a client failing with
a bad-request error on every attempt, under r = 3, is invoked exactly once. -/
theorem retry_policy_witness :
    invokeWithRetry
      (fun i => if i < 2 then Except.error (OAIError.transport "timeout") else Except.ok 7)
      0 3 = (Except.ok 7, 3)
  ∧ invokeWithRetry (fun _ => (Except.error (OAIError.api 400 "bad") : Except OAIError Nat))
      0 3 = (Except.error (OAIError.api 400 "bad"), 1) := by
  constructor
  · exact (retry_policy
      (fun i => if i < 2 then Except.error (OAIError.transport "timeout") else Except.ok 7)
      0 3 (by omega)).2.2.2.2 (OAIError.transport "timeout") (OAIError.transport "timeout") 7
      rfl rfl rfl rfl rfl rfl
  · exact (retry_policy (fun _ => (Except.error (OAIError.api 400 "bad") : Except OAIError Nat))
      0 3 (by omega)).2.2.2.1 (OAIError.api 400 "bad") rfl (fun _ => rfl)

end Starport.LLM

namespace Starport.LLM

open Starport Starport.Base

/-- Concrete llm module configured for the vanilla provider with API key k1
and no endpoint override. -/
def llmCexModule : Module := NewModuleWithConfig "openai" "" "k1" "g" "d"

/-- The same module after its API-key configuration is changed to k2 (as the
script-exposed set_openai_api_key setter would). -/
def llmCexModule2 : Module :=
  { llmCexModule with
    cfgMod := SetConfigValue llmCexModule.cfgMod "openai_api_key" "k2" }

/-- Counterexample to claim C1: the llm binding does not cache the client it
constructs. A first use builds a client from api key k1, and after the
configuration changes to k2 the next use builds a different client from the
new snapshot — the configuration change does affect operations after first
use, and two distinct live clients have been handed out by one binding
instance. -/
theorem llm_client_not_cached_cex :
    getClient llmCexModule "g" 0 = Except.ok (Client.openai "k1" defaultOpenAIBaseURL)
  ∧ getClient llmCexModule2 "g" 0 = Except.ok (Client.openai "k2" defaultOpenAIBaseURL)
  ∧ Client.openai "k1" defaultOpenAIBaseURL ≠ Client.openai "k2" defaultOpenAIBaseURL := by
  refine ⟨rfl, rfl, by decide⟩

/-- Claim C1 as amended: only a client injected through SetClient is cached
and reused; otherwise getClient builds a fresh client from the configuration
values read at the moment of the call, so configuration changes do affect
subsequent operations. -/
theorem llm_client_reuse_amended (m : Module) (model : String) (w : World) :
    (∀ c, m.cli = some c → getClient m model w = Except.ok c)
  ∧ (∀ k, m.cli = Option.none →
       GetConfig m.cfgMod "openai_provider" w = Except.ok "openai" →
       GetConfig m.cfgMod "openai_api_key" w = Except.ok k →
       GetConfig m.cfgMod "openai_endpoint_url" w = Except.ok "" →
       getClient m model w = Except.ok (Client.openai k defaultOpenAIBaseURL)) := by
  constructor
  · intro c hc
    simp [getClient, hc]
  · intro k hcli hp hk he
    simp [getClient, hcli, hp, hk, he]
    rfl

/-- Witness for the amended C1: an injected client is returned as-is, and a
module without one gets a client built from the currently-configured key. -/
theorem llm_client_reuse_witness :
    getClient (SetClient llmCexModule (Client.preset 9)) "g" 0 = Except.ok (Client.preset 9)
  ∧ getClient llmCexModule "g" 0 = Except.ok (Client.openai "k1" defaultOpenAIBaseURL) := by
  constructor
  · exact (llm_client_reuse_amended (SetClient llmCexModule (Client.preset 9)) "g" 0).1
      (Client.preset 9) rfl
  · exact (llm_client_reuse_amended llmCexModule "g" 0).2 "k1" rfl rfl rfl rfl

end Starport.LLM

namespace Starport

open Starport.Base Starport.Core Starport.Email Starport.LLM Starport.CKV Starport.Cacc

/-- Fresh ckv binding instance (NewModule: no configuration values set). -/
def ckvFreshModule : Starport.CKV.Module := ⟨NewConfigurableModule String, []⟩

/-- Counterexample to claim C4: the email binding's loaded module exposes no
get_config operation — its table holds only the generated setters and send. -/
theorem get_config_missing_cex :
    mapGet (emailLoadModule (Starport.Email.NewModuleWithConfig "key" "example.com"))
      "get_config" = none := rfl

/-- Claim C4 as amended: the charm-family bindings, loaded through the common
ExtendModuleLoader, expose get_config merged alongside their module-specific
operations, but the email and llm bindings, loaded directly through the base
loader, expose no get_config. -/
theorem get_config_presence :
    mapGet (ckvLoadModule ckvFreshModule) "get_config" = some Op.getConfigOp
  ∧ mapGet (ckvLoadModule ckvFreshModule) "reset" = some Op.kvReset
  ∧ mapGet (caccLoadModule Starport.Core.NewCommonModule) "get_config" = some Op.getConfigOp
  ∧ mapGet (caccLoadModule Starport.Core.NewCommonModule) "get_bio" = some Op.getBio
  ∧ mapGet (emailLoadModule (Starport.Email.NewModuleWithConfig "key" "example.com"))
      "get_config" = none
  ∧ mapGet (emailLoadModule (Starport.Email.NewModuleWithConfig "key" "example.com"))
      "send" = some Op.send
  ∧ mapGet (llmLoadModule (Starport.LLM.NewModuleWithConfig "openai" "" "k" "g" "d"))
      "get_config" = none
  ∧ mapGet (llmLoadModule (Starport.LLM.NewModuleWithConfig "openai" "" "k" "g" "d"))
      "chat" = some Op.chat := by
  refine ⟨rfl, rfl, rfl, rfl, rfl, rfl, rfl, rfl⟩

end Starport

namespace Starport.LLM

open Starport Starport.Base

/-- Externals whose provider calls succeed with responses carrying zero
choices / zero data items. -/
def zeroChoiceExt : LLMExternals where
  chatCall := fun _ _ _ => Except.ok {}
  imageCall := fun _ _ _ => Except.ok {}
  readImageFileB64 := fun _ => Except.error "no filesystem"
  imageDataToB64 := fun s => s
  b64DecodePNGRoundTrip := fun s => Except.ok s

/-- Module with an injected client, models resolved per call argument. -/
def llmInjectedModule : Module :=
  { cfgMod := NewConfigurableModule String, cli := some (Client.preset 1) }

/-- Claim C3 evaluated on the code: in simplified mode with one requested
choice, a successful provider response with zero choices makes chat return
None, but the same situation makes draw fault with an out-of-range index on
the empty data array instead of returning None. -/
theorem zero_items_chat_none_draw_panics :
    genChat zeroChoiceExt llmInjectedModule { model := some "g" } 0 = Except.ok StarValue.none
  ∧ genDraw zeroChoiceExt llmInjectedModule { prompt := some "cat", model := some "d" } 0 =
      Except.error (GoFailure.panic "runtime error: index out of range") := ⟨rfl, rfl⟩

end Starport.LLM

namespace Starport.LLM

open Starport Starport.Base

/-- Claim C6: when the provider invocation still fails after the retry loop,
allow_error true turns the failure into a None result with no error while
allow_error false (the default) propagates it; and any error arising before
the invoke step (model resolution, message conversion, response-format
check, client construction) propagates unchanged whatever allow_error is.
Stated for both the chat and the draw pipeline. -/
theorem allow_error_policy (ext : LLMExternals) (m : Module) (w : World) :
    (∀ (a : ChatArgs) (cli : Client) (req : ChatCompletionRequest) (e : OAIError),
       genChatPre ext m a w = Except.ok (cli, req) →
       (invokeWithRetry (ext.chatCall cli req) {} a.retry).1 = Except.error e →
       genChat ext m a w =
         (if a.allowError then Except.ok StarValue.none
          else Except.error (GoFailure.err (oaiErrorMessage e))))
  ∧ (∀ (a : ChatArgs) (e : String), genChatPre ext m a w = Except.error e →
       genChat ext m a w = Except.error (GoFailure.err e))
  ∧ (∀ (a : DrawArgs) (cli : Client) (req : ImageRequest) (e : OAIError),
       genDrawPre m a w = Except.ok (cli, req) →
       (invokeWithRetry (ext.imageCall cli req) {} a.retry).1 = Except.error e →
       genDraw ext m a w =
         (if a.allowError then Except.ok StarValue.none
          else Except.error (GoFailure.err (oaiErrorMessage e))))
  ∧ (∀ (a : DrawArgs) (e : String), genDrawPre m a w = Except.error e →
       genDraw ext m a w = Except.error (GoFailure.err e)) := by
  refine ⟨?_, ?_, ?_, ?_⟩
  · intro a cli req e hpre hinv
    simp [genChat, hpre, genChatPost, hinv]
  · intro a e hpre
    simp [genChat, hpre]
  · intro a cli req e hpre hinv
    simp [genDraw, hpre, genDrawPost, hinv]
  · intro a e hpre
    simp [genDraw, hpre]

/-- Externals whose provider calls always fail with a retryable transport
error. -/
def transportFailExt : LLMExternals where
  chatCall := fun _ _ _ => Except.error (OAIError.transport "connection reset")
  imageCall := fun _ _ _ => Except.error (OAIError.transport "connection reset")
  readImageFileB64 := fun _ => Except.error "no filesystem"
  imageDataToB64 := fun s => s
  b64DecodePNGRoundTrip := fun s => Except.ok s

/-- Request value genChatPre assembles for the argument list carrying only an
explicit model name. -/
def chatReqModelOnly : ChatCompletionRequest :=
  { model := "g"
    messages := []
    maxTokens := 64
    temperature := 1.0
    topP := 1.0
    n := 1
    stop := []
    presencePenalty := 0.0
    frequencyPenalty := 0.0
    responseFormat := some { type := "text" } }

/-- Witness for C6: the same transport failure is suppressed into None under
allow_error true, propagates as an error under the default, and a pre-invoke
failure (no model resolvable) propagates even under allow_error true. -/
theorem allow_error_witness :
    genChat transportFailExt llmInjectedModule { model := some "g", allowError := true } 0 =
      Except.ok StarValue.none
  ∧ genChat transportFailExt llmInjectedModule { model := some "g" } 0 =
      Except.error (GoFailure.err "connection reset")
  ∧ genChat transportFailExt llmInjectedModule { allowError := true } 0 =
      Except.error (GoFailure.err "gpt model is not set") := by
  refine ⟨?_, ?_, ?_⟩
  · have h := (allow_error_policy transportFailExt llmInjectedModule 0).1
      { model := some "g", allowError := true } (Client.preset 1) chatReqModelOnly
      (OAIError.transport "connection reset") rfl rfl
    simpa using h
  · have h := (allow_error_policy transportFailExt llmInjectedModule 0).1
      { model := some "g" } (Client.preset 1) chatReqModelOnly
      (OAIError.transport "connection reset") rfl rfl
    simpa using h
  · exact (allow_error_policy transportFailExt llmInjectedModule 0).2.1
      { allowError := true } "gpt model is not set" rfl

end Starport.LLM

namespace Starport.Email

open Starport Starport.Base

/-- Claim C7: on a send whose from is blank and from_id is not (the other
validations passing), a blank or unconfigured sender domain fails the call
with the missing-domain error before any network send, while a configured
domain resolves the request's From address to from_id at that domain. -/
theorem send_from_id_domain (ext : EmailExternals) (m : Module) (a : SendArgs)
    (w : World) (apiKey : String)
    (hkey : GetConfig m.cfgMod "resend_api_key" w = Except.ok apiKey)
    (hbody : (isBlank (nullableGoString a.html) && isBlank (nullableGoString a.text)
      && isBlank (nullableGoString a.markdown)) = false)
    (hto : (a.toAddrs.length == 0) = false)
    (hfrom : isBlank a.fromAddr = true)
    (hfid : isBlank a.fromId = false) :
    (isBlank (senderDomainOf m w) = true →
       genSend ext m a w =
         (Except.error "sender_domain should be set when from_id is used", 0))
  ∧ (isBlank (senderDomainOf m w) = false →
       ∀ key req, genSendPre ext m a w = Except.ok (key, req) →
         req.fromAddr = a.fromId ++ "@" ++ senderDomainOf m w) := by
  constructor
  · intro hdom
    simp [genSend, genSendPre, hkey, hbody, hto, hfrom, hfid, hdom]
  · intro hdom key req hpre
    simp [genSendPre, hkey, hbody, hto, hfrom, hfid, hdom] at hpre
    split at hpre
    · cases hpre
    · split at hpre
      · cases hpre
      · split at hpre
        · cases hpre
        · simp at hpre
          obtain ⟨hk2, hr2⟩ := hpre
          subst hr2
          split
          · rfl
          · split
            · rfl
            · split <;> rfl

/-- Externals for the send pipeline with a client recording a successful
send. -/
def okEmailExt : EmailExternals where
  mdToHTML := fun s => s
  readFile := fun _ => Except.error "no filesystem"
  sendEmail := fun _ _ => Except.ok "msg-1"

/-- Request genSendPre assembles for the alice witness arguments below. -/
def aliceReq : SendEmailRequest :=
  { fromAddr := "alice@example.com"
    toAddrs := ["bob@dest.example"]
    cc := []
    bcc := []
    replyTo := ""
    subject := "hello"
    text := "hi" }

/-- Witness for C7: with from_id alice and no domain configured the call
fails with the missing-domain error; with sender_domain example.com the
request's From address is alice at example.com. -/
theorem send_from_id_witness :
    genSend okEmailExt (NewModuleWithConfig "key" "")
      { subject := "hello", text := some "hi", toAddrs := ["bob@dest.example"],
        fromId := "alice" } 0 =
      (Except.error "sender_domain should be set when from_id is used", 0)
  ∧ aliceReq.fromAddr = "alice" ++ "@" ++
      senderDomainOf (NewModuleWithConfig "key" "example.com") 0 := by
  constructor
  · exact (send_from_id_domain okEmailExt (NewModuleWithConfig "key" "")
      { subject := "hello", text := some "hi", toAddrs := ["bob@dest.example"],
        fromId := "alice" } 0 "key" rfl rfl rfl rfl rfl).1 rfl
  · exact (send_from_id_domain okEmailExt (NewModuleWithConfig "key" "example.com")
      { subject := "hello", text := some "hi", toAddrs := ["bob@dest.example"],
        fromId := "alice" } 0 "key" rfl rfl rfl rfl rfl).2 rfl "key" aliceReq rfl

/-- Claim C8: a send whose recipient list is empty fails without the network
client ever being constructed or invoked, and — once the call gets as far as
the recipient check (API key configured, some body given) — with precisely
the recipient-validation error. -/
theorem send_empty_to (ext : EmailExternals) (m : Module) (a : SendArgs) (w : World)
    (hto : a.toAddrs = []) :
    ((genSend ext m a w).2 = 0)
  ∧ (∃ e, (genSend ext m a w).1 = Except.error e)
  ∧ (∀ apiKey, GetConfig m.cfgMod "resend_api_key" w = Except.ok apiKey →
       (isBlank (nullableGoString a.html) && isBlank (nullableGoString a.text)
         && isBlank (nullableGoString a.markdown)) = false →
       genSend ext m a w = (Except.error "to must be set and non-empty", 0)) := by
  have hpre : ∃ e, genSendPre ext m a w = Except.error e := by
    unfold genSendPre
    rcases hk : GetConfig m.cfgMod "resend_api_key" w with e | apiKey
    · exact ⟨_, rfl⟩
    · by_cases hb : (isBlank (nullableGoString a.html) && isBlank (nullableGoString a.text)
        && isBlank (nullableGoString a.markdown)) = true
      · simp [hb]
      · simp only [Bool.not_eq_true] at hb
        simp [hb, hto]
  obtain ⟨e, he⟩ := hpre
  refine ⟨?_, ?_, ?_⟩
  · simp [genSend, he]
  · exact ⟨e, by simp [genSend, he]⟩
  · intro apiKey hk hb
    simp [genSend, genSendPre, hk, hb, hto]

/-- Witness for C8: a concrete send with an empty recipient list fails with
the recipient-validation error and the fake client records zero sends. -/
theorem send_empty_to_witness :
    genSend okEmailExt (NewModuleWithConfig "key" "example.com")
      { subject := "hello", text := some "hi", toAddrs := [] } 0 =
      (Except.error "to must be set and non-empty", 0) := by
  exact (send_empty_to okEmailExt (NewModuleWithConfig "key" "example.com")
    { subject := "hello", text := some "hi", toAddrs := [] } 0 rfl).2.2 "key" rfl rfl

end Starport.Email

namespace Starport.CKV

open Starport Starport.Base

/-- Claim C10: reset(db) deletes the cache entry keyed by the literal db
argument. For a cached non-empty name the entry is gone and the next
operation on that name opens a fresh handle; for an omitted/empty db the
handle cached under the default database name survives the reset call, and
the next default-database operation reuses that already-reset handle without
opening a new one. -/
theorem kv_reset_cache (ext : KVExternals) (m : Module) :
    (∀ db c, db ≠ "" → mapGet m.dbs db = some c → ext.resetDB c = Except.ok () →
       resetLocalCopy ext m db = (Except.ok StarValue.none, ⟨m.cfgMod, mapErase m.dbs db⟩)
     ∧ mapGet (mapErase m.dbs db) db = none
     ∧ (∀ c2, ext.openDB db = Except.ok c2 →
          getDBClient ext ⟨m.cfgMod, mapErase m.dbs db⟩ db =
            (Except.ok c2, ⟨m.cfgMod, mapInsert (mapErase m.dbs db) db c2⟩, true)))
  ∧ (∀ c, mapGet m.dbs defaultDB = some c → ext.resetDB c = Except.ok () →
       resetLocalCopy ext m "" = (Except.ok StarValue.none, ⟨m.cfgMod, mapErase m.dbs ""⟩)
     ∧ mapGet (mapErase m.dbs "") defaultDB = some c
     ∧ getDBClient ext ⟨m.cfgMod, mapErase m.dbs ""⟩ "" =
         (Except.ok c, ⟨m.cfgMod, mapErase m.dbs ""⟩, false)) := by
  constructor
  · intro db c hdb hcached hreset
    refine ⟨?_, mapGet_mapErase_self _ _, ?_⟩
    · simp [resetLocalCopy, getDBClient, hdb, hcached, hreset]
    · intro c2 hopen
      simp [getDBClient, hdb, mapGet_mapErase_self, hopen]
  · intro c hcached hreset
    have hne : ("" : String) ≠ defaultDB := by decide
    have hget : mapGet (mapErase m.dbs "") defaultDB = some c := by
      rw [mapGet_mapErase_ne _ _ _ hne]
      exact hcached
    refine ⟨?_, hget, ?_⟩
    · simp [resetLocalCopy, getDBClient, hcached, hreset]
    · simp [getDBClient, hget]

/-- Externals for the KV binding: handles open under generation 99, resets
always succeed. -/
def kvTestExt : KVExternals where
  openDB := fun n => Except.ok ⟨n, 99⟩
  resetDB := fun _ => Except.ok ()

/-- KV module with a handle cached for mydb and for the default database. -/
def kvTestModule : Module :=
  ⟨NewConfigurableModule String,
   [("mydb", ⟨"mydb", 0⟩), (defaultDB, ⟨defaultDB, 7⟩)]⟩

/-- Witness for C10: resetting mydb drops its cache entry and the next
operation on mydb opens a fresh generation-99 handle, while after a
default-database reset the next default-database operation reuses the
generation-7 handle that was just reset, opening nothing. -/
theorem kv_reset_cache_witness :
    getDBClient kvTestExt ⟨kvTestModule.cfgMod, mapErase kvTestModule.dbs "mydb"⟩ "mydb" =
      (Except.ok ⟨"mydb", 99⟩,
       ⟨kvTestModule.cfgMod, mapInsert (mapErase kvTestModule.dbs "mydb") "mydb" ⟨"mydb", 99⟩⟩,
       true)
  ∧ getDBClient kvTestExt ⟨kvTestModule.cfgMod, mapErase kvTestModule.dbs ""⟩ "" =
      (Except.ok ⟨defaultDB, 7⟩, ⟨kvTestModule.cfgMod, mapErase kvTestModule.dbs ""⟩, false) := by
  constructor
  · exact ((kv_reset_cache kvTestExt kvTestModule).1 "mydb" ⟨"mydb", 0⟩ (by decide) rfl
      rfl).2.2 ⟨"mydb", 99⟩ rfl
  · exact ((kv_reset_cache kvTestExt kvTestModule).2 ⟨defaultDB, 7⟩ rfl rfl).2.2

end Starport.CKV
